import Mathlib

/-!
Shallow embedding of `cardano_node_tests/utils/tx_view.py`: the transaction
view cross-validator (`check_tx_view` and its helper functions).

Python dictionaries of the decoded YAML view are modelled as typed records
with `Option` fields for keys that may be absent; Python `set`s are modelled
as `Finset`s; exceptions (`AssertionError`, `KeyError`, `AttributeError`,
`IndexError`, `ValueError`) are modelled by the `Except TxErr` monad, whose
error type records exactly the data that the corresponding Python exception
message interpolates.
-/

namespace CardanoTxView

/-- `clusterlib.DEFAULT_COIN`. -/
def DEFAULT_COIN : String := "lovelace"

/-! String primitives are implemented structurally on the character list
(rather than through the byte-position loops of the core library) so that
concrete runs reduce inside the kernel. -/

/-- Auxiliary for `pySplit`: walk the characters, accumulating the current
word reversed. -/
def pySplitAux : List Char → List Char → List String
  | [], acc => if acc.isEmpty then [] else [String.mk acc.reverse]
  | c :: cs, acc =>
    if c.isWhitespace then
      if acc.isEmpty then pySplitAux cs []
      else String.mk acc.reverse :: pySplitAux cs []
    else pySplitAux cs (c :: acc)

/-- Python `str.split()` with no argument: split on whitespace runs,
dropping empty pieces. -/
def pySplit (s : String) : List String :=
  pySplitAux s.data []

/-- `pat` is a prefix of `s` (first argument the string, second the
pattern). -/
def listStartsWith : List Char → List Char → Bool
  | _, [] => true
  | [], _ :: _ => false
  | c :: cs, p :: ps => c = p && listStartsWith cs ps

/-- Auxiliary for `strContains`: `pat` occurs somewhere in the list. -/
def strContainsAux (pat : List Char) : List Char → Bool
  | [] => listStartsWith [] pat
  | c :: rest => listStartsWith (c :: rest) pat || strContainsAux pat rest

/-- Substring test, Python `pat in s`. -/
def strContains (s pat : String) : Bool :=
  strContainsAux pat.data s.data

/-- Replace every (non-overlapping, left-to-right) occurrence of `pat`,
Python `s.replace(pat, rep)`; the fuel argument bounds the recursion and is
instantiated with the length of `s`. -/
def replaceAllAux (pat rep : List Char) : Nat → List Char → List Char
  | 0, s => s
  | _ + 1, [] => []
  | fuel + 1, c :: rest =>
    if pat ≠ [] ∧ listStartsWith (c :: rest) pat then
      rep ++ replaceAllAux pat rep fuel ((c :: rest).drop pat.length)
    else c :: replaceAllAux pat rep fuel rest

/-- Python `s.replace(pat, rep)` (for non-empty `pat`). -/
def strReplace (s pat rep : String) : String :=
  String.mk (replaceAllAux pat.data rep.data s.data.length s.data)

/-- The characters following the first occurrence of `pat`, when any. -/
def textAfterFirstAux (pat : List Char) : List Char → Option (List Char)
  | [] => if listStartsWith [] pat then some [] else none
  | c :: rest =>
    if listStartsWith (c :: rest) pat then some ((c :: rest).drop pat.length)
    else textAfterFirstAux pat rest

/-- Lower-case hexadecimal digit, the character class `[0-9a-f]`. -/
def isHexDigitLower (c : Char) : Bool :=
  (('0' ≤ c) && (c ≤ '9')) || (('a' ≤ c) && (c ≤ 'f'))

/-- Longest prefix of characters satisfying `p`. -/
def takeWhileList (p : Char → Bool) : List Char → List Char
  | [] => []
  | c :: rest => if p c then c :: takeWhileList p rest else []

/-- Group 1 of Python `re.search(r"asset ([0-9a-f]*)", s)`: the maximal run
of lower-case hex digits right after the first occurrence of `"asset "`. -/
def assetMatchGroup (s : String) : String :=
  match textAfterFirstAux ("asset ").data s.data with
  | none => ""
  | some t => String.mk (takeWhileList isHexDigitLower t)

/-- Python `str.upper()` (ASCII). -/
def pyUpper (s : String) : String :=
  String.mk (s.data.map Char.toUpper)

/-- Auxiliary for `pyIntOfStr`: decimal digits to a number, `none` on a
non-digit. -/
def digitsToNatAux : List Char → Nat → Option Nat
  | [], acc => some acc
  | c :: rest, acc =>
    if c.isDigit then digitsToNatAux rest (acc * 10 + (c.toNat - 48))
    else none

/-- Python `int(s)` on a string: an optional sign followed by at least one
decimal digit; `none` models `ValueError`. -/
def pyIntOfStr (s : String) : Option Int :=
  match s.data with
  | [] => none
  | '-' :: rest =>
    if rest.isEmpty then none else (digitsToNatAux rest 0).map (fun n => -(n : Int))
  | '+' :: rest =>
    if rest.isEmpty then none else (digitsToNatAux rest 0).map (fun n => (n : Int))
  | cs => (digitsToNatAux cs 0).map (fun n => (n : Int))

/-- A UTxO reference on the request side: `clusterlib.UTXOData`
(only the fields `check_tx_view` reads). -/
structure UTxOData where
  utxo_hash : String
  utxo_ix : Int
deriving DecidableEq, Repr

/-- The rendering `f"{u.utxo_hash}#{u.utxo_ix}"` used throughout. -/
def utxoStr (u : UTxOData) : String :=
  u.utxo_hash ++ "#" ++ toString u.utxo_ix

/-- A transaction output on the request side: `clusterlib.TxOut`
(only the fields `check_tx_view` reads). -/
structure TxOut where
  address : String
  amount : Int
  coin : String
deriving DecidableEq, Repr

/-- A script-bearing input: `clusterlib.ScriptTxIn`
(only the fields `check_tx_view` reads). -/
structure ScriptTxIn where
  txins : List UTxOData
  collaterals : List UTxOData
  reference_txin : Option UTxOData
deriving DecidableEq, Repr

/-- A minting action: `clusterlib.Mint` (only the fields read here). -/
structure MintRec where
  txouts : List TxOut
  collaterals : List UTxOData
deriving DecidableEq, Repr

/-- A request-side withdrawal: `clusterlib.TxFiles`-level withdrawal record
(reward address and amount). -/
structure WithdrawalReq where
  address : String
  amount : Int
deriving DecidableEq, Repr

/-- A script withdrawal: `clusterlib.ScriptWithdrawal`
(only the `collaterals` field is read here). -/
structure ScriptWithdrawal where
  collaterals : List UTxOData
deriving DecidableEq, Repr

/-- A complex certificate: `clusterlib.ComplexCert`
(only the `collaterals` field is read here). -/
structure ComplexCert where
  collaterals : List UTxOData
deriving DecidableEq, Repr

/-- `clusterlib.TxFiles` (only the `certificate_files` field is read). -/
structure TxFiles where
  certificate_files : List String
deriving DecidableEq, Repr

/-- The transaction-construction request: `clusterlib.TxRawOutput`,
restricted to the fields `check_tx_view` reads.  The era tag is a string,
`""` meaning "not declared" (Python falsy). -/
structure TxRawOutput where
  txins : List UTxOData
  script_txins : List ScriptTxIn
  txouts : List TxOut
  fee : Int
  invalid_before : Option Int
  invalid_hereafter : Option Int
  mint : List MintRec
  withdrawals : List WithdrawalReq
  script_withdrawals : List ScriptWithdrawal
  complex_certs : List ComplexCert
  tx_files : TxFiles
  readonly_reference_txins : List UTxOData
  era : String
deriving DecidableEq, Repr

/-- The decoded `amount` of one output, as a YAML map: the value under the
`lovelace` key (`DEFAULT_COIN`), when present, and the remaining
policy-keyed entries, each an asset-name→amount map. -/
structure CoinsMap where
  lovelace : Option Int
  policies : List (String × List (String × Int))
deriving DecidableEq, Repr

/-- The decoded `amount` of one output: either a plain string
(pre-Mary eras, e.g. `"123 lovelace"`) or a nested map (Mary+). -/
inductive CoinsData where
  | str : String → CoinsData
  | map : CoinsMap → CoinsData
deriving DecidableEq, Repr

/-- One entry of the decoded view's `outputs` list. -/
structure ViewOutput where
  address : String
  amount : CoinsData
deriving DecidableEq, Repr

/-- The legacy nested `credential` map of a decoded withdrawal record. -/
structure CredentialRec where
  key_hash : Option String
  script_hash : Option String
deriving DecidableEq, Repr

/-- One entry of the decoded view's `withdrawals` list. -/
structure WithdrawalRec where
  stake_credential_key_hash : Option String
  stake_credential_script_hash : Option String
  credential : Option CredentialRec
  amount : Option String
deriving DecidableEq, Repr

/-- The decoded view's `validity range` map. -/
structure ValidityRange where
  lower_bound : Option Int
  upper_bound : Option Int
  time_to_live : Option Int
deriving DecidableEq, Repr

/-- One entry of the decoded view's `certificates` list: a tagged map,
each key paired with the field names of its nested map. -/
abbrev CertEntry := List (String × List String)

/-- The decoded transaction view (`tx_loaded`), restricted to the keys
`check_tx_view` reads; `none` models an absent key. -/
structure TxView where
  inputs : Option (List String)
  outputs : Option (List ViewOutput)
  fee : Option String
  validity_range : Option ValidityRange
  mint : Option (List (String × List (String × Int)))
  withdrawals : Option (List WithdrawalRec)
  certificates : Option (List CertEntry)
  era : Option String
  collateral_inputs : Option (List String)
  reference_inputs : Option (List String)
deriving DecidableEq, Repr

/-- The error raised by `check_tx_view`, carrying exactly the data that the
corresponding Python exception message interpolates.  `AssertionError`s map
to the per-property constructors; `KeyError`, `AttributeError`,
`IndexError` and `ValueError` model the uncaught runtime exceptions. -/
inductive TxErr where
  | txinsMismatch (raw loaded : Finset String)
  | txoutsMismatch (raw loaded : Finset (String × Int × String))
  | feeMismatch (raw loaded : Int)
  | invalidBeforeMismatch (raw loaded : Option Int)
  | invalidHereafterMismatch (raw loaded : Option Int)
  | mintMismatch (raw loaded : Finset (Int × String))
  | withdrawalsMismatch (raw loaded : Finset (Option String × Int))
  | certCountMismatch (raw loaded : Nat)
  | certFieldsError (certName : String)
  | eraMismatch (loadedVer rawVer : Nat)
  | collateralMismatch
  | referenceMismatch
  | keyError (key : String)
  | attributeError (attr : String)
  | indexError
  | valueError
deriving DecidableEq

/-- Python `x or []` on an optional list (`None` and `[]` are both falsy and
yield `[]`). -/
def pyListOr {α : Type} (l : Option (List α)) : List α :=
  match l with
  | none => []
  | some xs => xs

/-- Python truthiness of an optional string (`None` and `""` are falsy). -/
def truthyOptStr : Option String → Bool
  | none => false
  | some s => !s.isEmpty

/-- Python `a or b` on optional strings. -/
def pyOrStr (a b : Option String) : Option String :=
  if truthyOptStr a then a else b

/-- Python truthiness of an optional integer (`None` and `0` are falsy). -/
def truthyOptInt : Option Int → Bool
  | none => false
  | some n => n ≠ 0

/-- Python `a or b` on optional integers. -/
def pyOrInt (a b : Option Int) : Option Int :=
  if truthyOptInt a then a else b

/-- Python truthiness of an optional list (`None` and `[]` are falsy). -/
def truthyOptList {α : Type} : Option (List α) → Bool
  | none => false
  | some xs => !xs.isEmpty

/-- Python `int(w)` on a string: `ValueError` when `w` is not an integer
literal. -/
def pyInt (w : String) : Except TxErr Int :=
  match pyIntOfStr w with
  | some n => Except.ok n
  | none => Except.error TxErr.valueError

/-- The idiom `int(s.split()[0] or 0)` (used for fee, output amounts and
withdrawal amounts): `IndexError` on an empty/whitespace-only string (the
`or 0` never applies, since words produced by `split()` are non-empty). -/
def parse_amount (s : String) : Except TxErr Int :=
  match pySplit s with
  | [] => Except.error TxErr.indexError
  | w :: _ => pyInt w

/-- `CERTIFICATES_INFORMATION`: the static schema table mapping a
certificate kind to its allowed field names (`tx_view.py`, lines 20-45). -/
def CERTIFICATES_INFORMATION : String -> Option (List String)
  | "genesis key delegation" =>
      some ["VRF key hash", "delegate key hash", "genesis key hash"]
  | "MIR" =>
      some ["pot", "target stake addresses", "send to treasury", "send to reserves"]
  | "stake address deregistration" =>
      some ["stake credential key hash", "stake credential script hash"]
  | "stake address registration" =>
      some ["stake credential key hash", "stake credential script hash"]
  | "stake address delegation" =>
      some ["pool", "stake credential key hash", "stake credential script hash"]
  | "stake pool retirement" =>
      some ["epoch", "pool"]
  | "stake pool registration" =>
      some ["VRF key hash", "cost", "margin", "metadata", "owners (stake key hashes)",
            "pledge", "pool", "relays", "reward account"]
  | _ => none

/-- Modelled from the spec: the era-name→ordinal table of
`cardano_node_tests.utils.versions.VERSIONS` (the file `versions.py` is not
under `src/`).  Per the spec, a "fixed era-name→ordinal table" with
`PreAlonzo < Alonzo < Babbage`; era names are the attribute names looked up
by `getattr(VERSIONS, era.upper())`, and an unknown name has no entry
(the attribute lookup fails). -/
def eraVersion : String -> Option Nat
  | "BYRON" => some 1
  | "SHELLEY" => some 2
  | "ALLEGRA" => some 3
  | "MARY" => some 4
  | "ALONZO" => some 5
  | "BABBAGE" => some 6
  | _ => none

/-- `VERSIONS.ALONZO`: ordinal of the era that introduced collateral. -/
def VERSIONS_ALONZO : Nat := 5

/-- `VERSIONS.BABBAGE`: ordinal of the era that introduced reference
inputs. -/
def VERSIONS_BABBAGE : Nat := 6

/-- Modelled from the spec: `VERSIONS.DEFAULT_TX_ERA` ("request era absent
⇒ use a configured default era ordinal"); the configured default is taken
to be the newest modelled era. -/
def DEFAULT_TX_ERA : Nat := 6

/-- `_load_assets` (`tx_view.py`, lines 54-70): normalize a policy→asset→
amount map into a list of `(amount, token)` pairs, skipping the
`DEFAULT_COIN` key, removing `"policy "` from policy keys, taking the hex
group after `"asset "` in asset names (`"default asset"` becomes `""`), and
rendering the token as `policy.asset` when the asset name is non-empty and
as the bare policy key otherwise. -/
def _load_assets (assets : List (String × List (String × Int))) :
    List (Int × String) :=
  assets.foldl
    (fun acc pr =>
      let policy_key0 := pr.1
      if policy_key0 = DEFAULT_COIN then acc
      else
        let policy_key :=
          if strContains policy_key0 "policy " then
            strReplace policy_key0 "policy " ""
          else policy_key0
        acc ++ pr.2.map (fun ar =>
          let asset_name0 := ar.1
          let asset_name :=
            if strContains asset_name0 "asset " then assetMatchGroup asset_name0
            else if asset_name0 = "default asset" then ""
            else asset_name0
          let token :=
            if asset_name ≠ "" then policy_key ++ "." ++ asset_name
            else policy_key
          (ar.2, token)))
    []

/-- `_load_coins_data` (`tx_view.py`, lines 73-90): normalize a decoded
`amount` value — a map (Mary+) or a plain string (older eras) — into
`(amount, token)` pairs. -/
def _load_coins_data (coins_data : CoinsData) : Except TxErr (List (Int × String)) :=
  match coins_data with
  | CoinsData.map m =>
      let base :=
        match m.lovelace with
        | some n => if n ≠ 0 then [(n, DEFAULT_COIN)] else []
        | none => []
      Except.ok (base ++ _load_assets m.policies)
  | CoinsData.str s => do
      let n ← parse_amount s
      let base := if n ≠ 0 then [(n, DEFAULT_COIN)] else []
      Except.ok base

/-- Request-side input set: plain `txins` united with the flattened
`txins` of all script-bearing inputs, rendered as `hash#index`
(`tx_view.py`, lines 143-149). -/
def tx_raw_txins_set (r : TxRawOutput) : Finset String :=
  ((r.txins.map utxoStr).toFinset) ∪
    (((r.script_txins.map ScriptTxIn.txins).flatten.map utxoStr).toFinset)

/-- View-side input set: `set(tx_loaded.get("inputs") or [])`. -/
def loaded_txins_set (v : TxView) : Finset String :=
  (pyListOr v.inputs).toFinset

/-- The inputs check (`tx_view.py`, lines 142-152). -/
def inputs_check (r : TxRawOutput) (v : TxView) : Except TxErr Unit :=
  if tx_raw_txins_set r ≠ loaded_txins_set v then
    Except.error (TxErr.txinsMismatch (tx_raw_txins_set r) (loaded_txins_set v))
  else Except.ok ()

/-- View-side output set: each decoded output's address paired with every
`(amount, token)` of its expanded coin map (`tx_view.py`, lines 155-160). -/
def loaded_txouts_set (outs : List ViewOutput) :
    Except TxErr (Finset (String × Int × String)) :=
  outs.foldlM
    (fun acc o => do
      let coins ← _load_coins_data o.amount
      pure (acc ∪ (coins.map (fun a => (o.address, a.1, a.2))).toFinset))
    ∅

/-- Request-side output set: `{(r.address, r.amount, r.coin)}`. -/
def tx_raw_txouts_set (r : TxRawOutput) : Finset (String × Int × String) :=
  (r.txouts.map (fun t => (t.address, t.amount, t.coin))).toFinset

/-- The outputs check (`tx_view.py`, lines 154-165): the request set must
be a subset of the view set. -/
def outputs_check (r : TxRawOutput) (v : TxView) : Except TxErr Unit := do
  let loaded ← loaded_txouts_set (pyListOr v.outputs)
  if ¬ tx_raw_txouts_set r ⊆ loaded then
    throw (TxErr.txoutsMismatch (tx_raw_txouts_set r) loaded)
  else pure ()

/-- The fee check (`tx_view.py`, lines 167-173):
`fee = int(tx_loaded.get("fee", "").split()[0] or 0)`, then compare unless
the request fee is `-1`. -/
def fee_check (r : TxRawOutput) (v : TxView) : Except TxErr Unit := do
  let fee ← parse_amount (v.fee.getD "")
  if r.fee ≠ -1 ∧ r.fee ≠ fee then
    throw (TxErr.feeMismatch r.fee fee)
  else pure ()

/-- `tx_loaded.get("validity range") or {}`. -/
def view_validity_range (v : TxView) : ValidityRange :=
  v.validity_range.getD ⟨none, none, none⟩

/-- The invalid-before check (`tx_view.py`, lines 178-182). -/
def invalid_before_check (r : TxRawOutput) (v : TxView) : Except TxErr Unit :=
  let loaded := (view_validity_range v).lower_bound
  if r.invalid_before ≠ loaded then
    Except.error (TxErr.invalidBeforeMismatch r.invalid_before loaded)
  else Except.ok ()

/-- View-side upper bound (`tx_view.py`, lines 184-186):
`validity_range.get("upper bound") or validity_range.get("time to live")`
(Python `or`: falls through when the upper bound is absent, null or 0). -/
def loaded_invalid_hereafter (v : TxView) : Option Int :=
  pyOrInt (view_validity_range v).upper_bound (view_validity_range v).time_to_live

/-- The invalid-hereafter check (`tx_view.py`, lines 184-190). -/
def invalid_hereafter_check (r : TxRawOutput) (v : TxView) : Except TxErr Unit :=
  if r.invalid_hereafter ≠ loaded_invalid_hereafter v then
    Except.error
      (TxErr.invalidHereafterMismatch r.invalid_hereafter (loaded_invalid_hereafter v))
  else Except.ok ()

/-- View-side mint set: `set(_load_assets(tx_loaded.get("mint") or {}))`. -/
def loaded_mint_set (v : TxView) : Finset (Int × String) :=
  (_load_assets (pyListOr v.mint)).toFinset

/-- Request-side mint set: `(amount, coin)` over the flattened `txouts` of
all minting actions. -/
def tx_raw_mint_set (r : TxRawOutput) : Finset (Int × String) :=
  (((r.mint.map MintRec.txouts).flatten).map (fun t => (t.amount, t.coin))).toFinset

/-- The mint check (`tx_view.py`, lines 192-198). -/
def mint_check (r : TxRawOutput) (v : TxView) : Except TxErr Unit :=
  if tx_raw_mint_set r ≠ loaded_mint_set v then
    Except.error (TxErr.mintMismatch (tx_raw_mint_set r) (loaded_mint_set v))
  else Except.ok ()

/-- The credential of one decoded withdrawal record (`tx_view.py`,
lines 205-211): the Python `or`-chain over the four candidate fields
(an empty-string value is falsy and falls through). -/
def withdrawal_key (w : WithdrawalRec) : Option String :=
  pyOrStr w.stake_credential_key_hash
    (pyOrStr w.stake_credential_script_hash
      (pyOrStr (w.credential.bind CredentialRec.key_hash)
        (w.credential.bind CredentialRec.script_hash)))

/-- View-side withdrawal set (`tx_view.py`, lines 201-213):
`withdrawal["amount"]` raises `KeyError` when absent, and its leading
integer is parsed as for the fee. -/
def loaded_withdrawals_set (ws : List WithdrawalRec) :
    Except TxErr (Finset (Option String × Int)) :=
  ws.foldlM
    (fun acc w => do
      let amtStr ←
        match w.amount with
        | none => throw (TxErr.keyError "amount")
        | some s => pure s
      let amt ← parse_amount amtStr
      pure (insert (withdrawal_key w, amt) acc))
    ∅

/-- Request-side withdrawal set (`tx_view.py`, lines 215-217): the decoded
reward address with its first two characters (the header byte) removed,
paired with the amount.  `d` models `helpers.decode_bech32` (`helpers.py`
is not under `src/`), supplied as an abstract decoder. -/
def tx_raw_withdrawals_set (d : String -> String) (r : TxRawOutput) :
    Finset (Option String × Int) :=
  (r.withdrawals.map (fun w => (some ((d w.address).drop 2), w.amount))).toFinset

/-- The withdrawals check (`tx_view.py`, lines 200-220); the view list is
only walked when truthy (non-`None` and non-empty). -/
def withdrawals_check (d : String -> String) (r : TxRawOutput) (v : TxView) :
    Except TxErr Unit := do
  let loaded ←
    if truthyOptList v.withdrawals then loaded_withdrawals_set (pyListOr v.withdrawals)
    else pure ∅
  if tx_raw_withdrawals_set d r ≠ loaded then
    throw (TxErr.withdrawalsMismatch (tx_raw_withdrawals_set d r) loaded)
  else pure ()

/-- The certificate-count check (`tx_view.py`, lines 222-229). -/
def cert_count_check (r : TxRawOutput) (v : TxView) : Except TxErr Unit :=
  let tx_raw_len_certs := r.tx_files.certificate_files.length + r.complex_certs.length
  let loaded_len_certs := (pyListOr v.certificates).length
  if tx_raw_len_certs ≠ loaded_len_certs then
    Except.error (TxErr.certCountMismatch tx_raw_len_certs loaded_len_certs)
  else Except.ok ()

/-- The shape check of one decoded certificate (`tx_view.py`,
lines 231-241): `list(certificate.keys())[0]` raises `IndexError` on an
empty map; a registered kind (whose allowed-field set is truthy, i.e.
non-empty) errors exactly when the certificate's field set is not a subset
of the allowed set; an unregistered kind is skipped. -/
def check_certificate (c : CertEntry) : Except TxErr Unit :=
  match c with
  | [] => Except.error TxErr.indexError
  | (certificate_name, fields) :: _ =>
    match CERTIFICATES_INFORMATION certificate_name with
    | some allowed =>
        if allowed ≠ [] ∧ ¬ fields.toFinset ⊆ allowed.toFinset then
          Except.error (TxErr.certFieldsError certificate_name)
        else Except.ok ()
    | none => Except.ok ()

/-- The certificate-shapes check: walk the decoded certificates in order,
propagating the first error. -/
def cert_shapes_check (v : TxView) : Except TxErr Unit :=
  (pyListOr v.certificates).foldlM (fun _ c => check_certificate c) ()

/-- The era check (`tx_view.py`, lines 243-256): `tx_loaded["era"]` raises
`KeyError` when absent; `getattr(VERSIONS, era.upper())` raises
`AttributeError` for an unknown era; the request era is used when truthy
(non-empty), else the configured default.  Returns the loaded era ordinal
(used by the era-gated checks). -/
def era_check (r : TxRawOutput) (v : TxView) : Except TxErr Nat := do
  let loaded_tx_era ←
    match v.era with
    | none => throw (TxErr.keyError "era")
    | some e => pure e
  let loaded_tx_version ←
    match eraVersion (pyUpper loaded_tx_era) with
    | none => throw (TxErr.attributeError (pyUpper loaded_tx_era))
    | some n => pure n
  let output_tx_version ←
    if r.era ≠ "" then
      match eraVersion (pyUpper r.era) with
      | none => throw (TxErr.attributeError (pyUpper r.era))
      | some n => pure n
    else pure DEFAULT_TX_ERA
  if loaded_tx_version ≠ output_tx_version then
    throw (TxErr.eraMismatch loaded_tx_version output_tx_version)
  else pure loaded_tx_version

/-- Request-side collateral set: the flattened `collaterals` of minting
actions, script inputs, script withdrawals and complex certificates
(`tx_view.py`, lines 97-110; each of the four record types carries a
`collaterals` attribute, so the `hasattr` filter keeps them all). -/
def tx_raw_collateral_set (r : TxRawOutput) : Finset String :=
  (((r.mint.map MintRec.collaterals) ++ (r.script_txins.map ScriptTxIn.collaterals)
      ++ (r.script_withdrawals.map ScriptWithdrawal.collaterals)
      ++ (r.complex_certs.map ComplexCert.collaterals)).flatten.map utxoStr).toFinset

/-- `_check_collateral_inputs` (`tx_view.py`, lines 93-112). -/
def _check_collateral_inputs (r : TxRawOutput) (expected_collateral : List String) :
    Bool :=
  tx_raw_collateral_set r = expected_collateral.toFinset

/-- Request-side reference-input set: read-only reference inputs followed
by each script input's truthy `reference_txin` (`tx_view.py`,
lines 119-128). -/
def tx_raw_reference_set (r : TxRawOutput) : Finset String :=
  ((r.readonly_reference_txins
      ++ (r.script_txins.filterMap ScriptTxIn.reference_txin)).map utxoStr).toFinset

/-- `_check_reference_inputs` (`tx_view.py`, lines 115-130). -/
def _check_reference_inputs (r : TxRawOutput) (expected_reference_inputs : List String) :
    Bool :=
  tx_raw_reference_set r = expected_reference_inputs.toFinset

/-- The era-gated collateral-inputs check (`tx_view.py`, lines 258-262):
evaluated only when the loaded era ordinal is at or above Alonzo;
`tx_loaded["collateral inputs"]` raises `KeyError` when the key is
absent. -/
def collateral_check (ver : Nat) (r : TxRawOutput) (v : TxView) : Except TxErr Unit :=
  if VERSIONS_ALONZO ≤ ver then
    match v.collateral_inputs with
    | none => Except.error (TxErr.keyError "collateral inputs")
    | some expected =>
        if ¬ _check_collateral_inputs r expected then
          Except.error TxErr.collateralMismatch
        else Except.ok ()
  else Except.ok ()

/-- The era-gated reference-inputs check (`tx_view.py`, lines 264-269):
evaluated only when the loaded era ordinal is at or above Babbage;
`tx_loaded.get("reference inputs") or []` defaults to the empty list. -/
def reference_check (ver : Nat) (r : TxRawOutput) (v : TxView) : Except TxErr Unit :=
  if VERSIONS_BABBAGE ≤ ver then
    if ¬ _check_reference_inputs r (pyListOr v.reference_inputs) then
      Except.error TxErr.referenceMismatch
    else Except.ok ()
  else Except.ok ()

/-- `check_tx_view` (`tx_view.py`, lines 133-271): the twelve checks in
source order, stopping at the first error (each Python `raise` aborts the
call).  `d` models `helpers.decode_bech32`. -/
def check_tx_view (d : String -> String) (r : TxRawOutput) (v : TxView) :
    Except TxErr Unit := do
  inputs_check r v
  outputs_check r v
  fee_check r v
  invalid_before_check r v
  invalid_hereafter_check r v
  mint_check r v
  withdrawals_check d r v
  cert_count_check r v
  cert_shapes_check v
  let ver ← era_check r v
  collateral_check ver r v
  reference_check ver r v

/-- The first nine checks of `check_tx_view` (everything before the era
lookup), in source order. -/
def pre_era_checks (d : String -> String) (r : TxRawOutput) (v : TxView) :
    Except TxErr Unit := do
  inputs_check r v
  outputs_check r v
  fee_check r v
  invalid_before_check r v
  invalid_hereafter_check r v
  mint_check r v
  withdrawals_check d r v
  cert_count_check r v
  cert_shapes_check v

/-- The upper validity bound as claim C5's words state it: the legacy
`time to live` key is consulted only when the `upper bound` key is
absent. -/
def claimed_invalid_hereafter (v : TxView) : Option Int :=
  match (view_validity_range v).upper_bound with
  | some n => some n
  | none => (view_validity_range v).time_to_live

/-- The withdrawal credential as claim C7's words state it: whichever of
the four candidate fields is present, tried in that order. -/
def claimed_withdrawal_key (w : WithdrawalRec) : Option String :=
  match w.stake_credential_key_hash with
  | some s => some s
  | none =>
    match w.stake_credential_script_hash with
    | some s => some s
    | none =>
      match w.credential.bind CredentialRec.key_hash with
      | some s => some s
      | none => w.credential.bind CredentialRec.script_hash

/-- The view-side withdrawal set as claim C7's words state it (same amount
parsing, credential extracted by presence instead of truthiness). -/
def claimed_withdrawals_set (ws : List WithdrawalRec) :
    Except TxErr (Finset (Option String × Int)) :=
  ws.foldlM
    (fun acc w => do
      let amtStr ←
        match w.amount with
        | none => throw (TxErr.keyError "amount")
        | some s => pure s
      let amt ← parse_amount amtStr
      pure (insert (claimed_withdrawal_key w, amt) acc))
    ∅

/-! ### Concrete fixtures for witnesses and counterexamples -/

/-- Request with no inputs, outputs, fee 0 and no optional data. -/
def emptyReq : TxRawOutput :=
  { txins := [], script_txins := [], txouts := [], fee := 0,
    invalid_before := none, invalid_hereafter := none, mint := [],
    withdrawals := [], script_withdrawals := [], complex_certs := [],
    tx_files := { certificate_files := [] }, readonly_reference_txins := [],
    era := "" }

/-- A minimal decoded view that `emptyReq` verifies against. -/
def baseView : TxView :=
  { inputs := none, outputs := none, fee := some "0 lovelace",
    validity_range := none, mint := none, withdrawals := none,
    certificates := none, era := some "Babbage",
    collateral_inputs := some [], reference_inputs := none }

/-! ### General lemmas about `Except` sequencing -/

theorem exbind_ok {ε α β : Type} (a : α) (f : α -> Except ε β) :
    (Except.ok a : Except ε α) >>= f = f a := rfl

theorem exbind_error {ε α β : Type} (e : ε) (f : α -> Except ε β) :
    (Except.error e : Except ε α) >>= f = Except.error e := rfl

theorem exbind_eq_ok {ε α β : Type} {x : Except ε α} {f : α -> Except ε β} {b : β} :
    x >>= f = Except.ok b ↔ ∃ a, x = Except.ok a ∧ f a = Except.ok b := by
  cases x with
  | ok a => simp [exbind_ok]
  | error e => simp [exbind_error]

deriving instance DecidableEq for Except

theorem exthrow {ε α : Type} (e : ε) : (throw e : Except ε α) = Except.error e := rfl

theorem expure {ε α : Type} (a : α) : (pure a : Except ε α) = Except.ok a := rfl

/-! ### Claim C2 -/

/-- C2: the inputs check passes exactly when the union of the request's
plain input references and the references flattened from its script-bearing
inputs, rendered `hash#index`, equals — as a set — the strings under the
view's `inputs` key; reordering the view's `inputs` list never changes the
outcome. -/
theorem inputs_check_set_equality (r : TxRawOutput) (v : TxView) :
    (inputs_check r v = Except.ok () ↔ tx_raw_txins_set r = loaded_txins_set v)
    ∧ ∀ l₁ l₂ : List String, l₁.Perm l₂ →
        inputs_check r { v with inputs := some l₁ } =
          inputs_check r { v with inputs := some l₂ } := by
  constructor
  · unfold inputs_check
    split <;> simp_all
  · intro l₁ l₂ hp
    have h : loaded_txins_set { v with inputs := some l₁ } =
        loaded_txins_set { v with inputs := some l₂ } := by
      simp only [loaded_txins_set, pyListOr]
      exact List.toFinset_eq_of_perm _ _ hp
    unfold inputs_check
    rw [h]

theorem inputs_check_set_equality_witness :
    (inputs_check emptyReq baseView = Except.ok () ↔
      tx_raw_txins_set emptyReq = loaded_txins_set baseView)
    ∧ inputs_check emptyReq { baseView with inputs := some ["a#0", "b#1"] } =
        inputs_check emptyReq { baseView with inputs := some ["b#1", "a#0"] } :=
  ⟨(inputs_check_set_equality emptyReq baseView).1,
    (inputs_check_set_equality emptyReq baseView).2 _ _ (by decide)⟩

/-! ### Claim C3 -/

/-- C3: when the view's outputs expand without error to the triple set `S`,
the outputs check passes exactly when the request's `(address, amount,
token)` set is a subset of `S` — extra view entries beyond the request's
outputs never cause a failure. -/
theorem outputs_check_subset (r : TxRawOutput) (v : TxView)
    (S : Finset (String × Int × String))
    (h : loaded_txouts_set (pyListOr v.outputs) = Except.ok S) :
    outputs_check r v = Except.ok () ↔ tx_raw_txouts_set r ⊆ S := by
  unfold outputs_check
  rw [h, exbind_ok]
  split <;> simp_all [exthrow, expure]

/-- Request with a single plain output. -/
def c3Req : TxRawOutput :=
  { emptyReq with txouts := [{ address := "addr1", amount := 2, coin := "lovelace" }] }

/-- View whose outputs carry one matching entry plus an extra zero-effect
entry that normalizes away. -/
def c3View : TxView :=
  { baseView with outputs := some (
      [{ address := "addr1", amount := CoinsData.map { lovelace := some 2, policies := [] } },
       { address := "addr2", amount := CoinsData.str "0 lovelace" }]) }

theorem outputs_check_subset_witness :
    loaded_txouts_set (pyListOr c3View.outputs) = Except.ok {("addr1", 2, "lovelace")}
    ∧ (outputs_check c3Req c3View = Except.ok () ↔
        tx_raw_txouts_set c3Req ⊆ {("addr1", 2, "lovelace")}) := by
  have h : loaded_txouts_set (pyListOr c3View.outputs) =
      Except.ok {("addr1", 2, "lovelace")} := by decide
  exact ⟨h, outputs_check_subset c3Req c3View _ h⟩

/-! ### Claim C6 -/

/-- C6: the mint check passes exactly when the `(amount, token)` pairs
flattened from all minting actions' token outputs equal — as a set — the
normalization of the view's `mint` map, and the normalizer turns the map
`{"policy policyid": {"asset 6161": 5}}` into `(5, "policyid.6161")`. -/
theorem mint_check_set_equality (r : TxRawOutput) (v : TxView) :
    (mint_check r v = Except.ok () ↔
      tx_raw_mint_set r = (_load_assets (pyListOr v.mint)).toFinset)
    ∧ _load_assets [("policy policyid", [("asset 6161", 5)])] = [(5, "policyid.6161")] := by
  constructor
  · unfold mint_check loaded_mint_set
    split <;> simp_all
  · decide

/-! ### Claim C4 -/

/-- Build-mode request (fee sentinel `-1`). -/
def c4Req : TxRawOutput := { emptyReq with fee := -1 }

/-- View whose `fee` text field is empty. -/
def c4View : TxView := { baseView with fee := some "" }

/-- C4 (code bug): on an empty fee text field `check_tx_view` raises
`IndexError` (from `tx_loaded.get("fee", "").split()[0]`) even when the
request fee is the `-1` build-mode sentinel — the `or 0` default in the
source is unreachable, so the claimed "empty fee parses as 0 / sentinel
always passes" behavior is never reached. -/
theorem fee_check_empty_fee_crash :
    check_tx_view (fun _ => "") c4Req c4View = Except.error TxErr.indexError
    ∧ c4Req.fee = -1 ∧ c4View.fee = some "" := by decide

/-! ### Claim C5 -/

/-- Request declaring invalid-hereafter slot 5. -/
def c5Req : TxRawOutput := { emptyReq with invalid_hereafter := some 5 }

/-- View with `upper bound: 0` present and `time to live: 5`. -/
def c5View : TxView :=
  { baseView with validity_range := some (ValidityRange.mk none (some 0) (some 5)) }

/-- C5 counterexample: with the `upper bound` key present with value `0`
and `time to live: 5`, the code's Python `or` treats `0` as falsy and falls
back to the legacy key, so the check passes for request bound `5` — though
the claim's view-side value (fall back only when `upper bound` is absent)
is `0`, which predicts a failure. -/
theorem upper_bound_zero_counterexample :
    invalid_hereafter_check c5Req c5View = Except.ok ()
    ∧ claimed_invalid_hereafter c5View = some 0
    ∧ c5Req.invalid_hereafter = some 5 := by decide

/-- C5 (amended): the upper validity-interval check compares the request's
invalid-hereafter against the view's `upper bound` value when that value is
present and non-zero, and falls back to the legacy `time to live` value
when the `upper bound` key is absent, null or zero; it passes exactly on
equality, and passes when both the request bound and the whole validity
range are absent. -/
theorem invalid_hereafter_check_truthy_fallback (r : TxRawOutput) (v : TxView) :
    (invalid_hereafter_check r v = Except.ok () ↔
      r.invalid_hereafter = loaded_invalid_hereafter v)
    ∧ (truthyOptInt (view_validity_range v).upper_bound = true →
        loaded_invalid_hereafter v = (view_validity_range v).upper_bound)
    ∧ (truthyOptInt (view_validity_range v).upper_bound = false →
        loaded_invalid_hereafter v = (view_validity_range v).time_to_live)
    ∧ (r.invalid_hereafter = none → v.validity_range = none →
        invalid_hereafter_check r v = Except.ok ()) := by
  refine ⟨?_, ?_, ?_, ?_⟩
  · unfold invalid_hereafter_check
    split <;> simp_all
  · intro h
    simp [loaded_invalid_hereafter, pyOrInt, h]
  · intro h
    simp [loaded_invalid_hereafter, pyOrInt, h]
  · intro h1 h2
    unfold invalid_hereafter_check
    rw [h1]
    simp [loaded_invalid_hereafter, view_validity_range, h2, pyOrInt, truthyOptInt]

/-- View with a non-zero `upper bound`. -/
def c5ViewUpper : TxView :=
  { baseView with validity_range := some (ValidityRange.mk none (some 7) (some 9)) }

theorem invalid_hereafter_check_truthy_fallback_witness :
    loaded_invalid_hereafter c5ViewUpper = (view_validity_range c5ViewUpper).upper_bound
    ∧ loaded_invalid_hereafter c5View = (view_validity_range c5View).time_to_live
    ∧ invalid_hereafter_check emptyReq baseView = Except.ok () :=
  ⟨(invalid_hereafter_check_truthy_fallback emptyReq c5ViewUpper).2.1 (by decide),
   (invalid_hereafter_check_truthy_fallback emptyReq c5View).2.2.1 (by decide),
   (invalid_hereafter_check_truthy_fallback emptyReq baseView).2.2.2 (by decide) (by decide)⟩

/-! ### Claim C7 -/

/-- Decoded withdrawal record whose modern key-hash field is present but
empty, with the credential in the legacy nested map. -/
def c7w : WithdrawalRec :=
  { stake_credential_key_hash := some "",
    stake_credential_script_hash := none,
    credential := some { key_hash := some "abcd1234", script_hash := none },
    amount := some "5 lovelace" }

/-- Request with one withdrawal of amount 5. -/
def c7Req : TxRawOutput :=
  { emptyReq with withdrawals := [{ address := "stake1xyz", amount := 5 }] }

/-- View with the single record `c7w`. -/
def c7View : TxView := { baseView with withdrawals := some [c7w] }

/-- Decoder fixture: every reward address decodes to header byte `e0`
followed by the credential `abcd1234`. -/
def c7dec : String -> String := fun _ => "e0abcd1234"

/-- C7 counterexample: a record whose first candidate field is present but
empty falls through to the legacy nested key hash (Python `or` skips falsy
values), so the check passes — though building the view-side set from
"whichever field is present, in order" yields the empty-string credential
and predicts a failure. -/
theorem withdrawal_key_truthiness_counterexample :
    withdrawals_check c7dec c7Req c7View = Except.ok ()
    ∧ claimed_withdrawals_set (pyListOr c7View.withdrawals) =
        Except.ok {(some "", 5)}
    ∧ tx_raw_withdrawals_set c7dec c7Req ≠ {(some "", 5)} := by decide

/-- C7 (amended): when the view-side withdrawal pairs build without error
to the set `S` — each record's credential taken from the first of the four
candidate fields bearing a non-null, non-empty value, tried in the order
key hash, script hash, legacy nested key hash, legacy nested script hash
(the last candidate's value when none does), and its amount the leading
integer of its amount text — the withdrawals check passes exactly when the
request-side set of (decoded reward address stripped of its header byte,
amount) pairs equals `S`. -/
theorem withdrawals_check_set_equality (d : String -> String) (r : TxRawOutput)
    (v : TxView) (S : Finset (Option String × Int))
    (h : (if truthyOptList v.withdrawals then
            loaded_withdrawals_set (pyListOr v.withdrawals)
          else pure ∅) = Except.ok S) :
    withdrawals_check d r v = Except.ok () ↔ tx_raw_withdrawals_set d r = S := by
  unfold withdrawals_check
  by_cases ht : truthyOptList v.withdrawals = true
  · simp only [if_pos ht] at h ⊢
    rw [h, exbind_ok]
    split <;> simp_all [exthrow, expure]
  · simp only [if_neg ht] at h ⊢
    rw [expure] at h
    injection h with hS
    subst hS
    rw [expure, exbind_ok]
    split <;> simp_all [exthrow, expure]

/-- Record with the modern key-hash field. -/
def c7wA : WithdrawalRec :=
  { stake_credential_key_hash := some "abcd1234",
    stake_credential_script_hash := none, credential := none,
    amount := some "5 lovelace" }

/-- Record with only the legacy nested key hash. -/
def c7wB : WithdrawalRec :=
  { stake_credential_key_hash := none, stake_credential_script_hash := none,
    credential := some { key_hash := some "abcd1234", script_hash := none },
    amount := some "5 lovelace" }

theorem withdrawals_check_set_equality_witness :
    withdrawals_check c7dec c7Req { baseView with withdrawals := some [c7wA] } =
      Except.ok ()
    ∧ withdrawals_check c7dec c7Req { baseView with withdrawals := some [c7wB] } =
      Except.ok () :=
  ⟨(withdrawals_check_set_equality c7dec c7Req
      { baseView with withdrawals := some [c7wA] } {(some "abcd1234", 5)}
      (by decide)).mpr (by decide),
   (withdrawals_check_set_equality c7dec c7Req
      { baseView with withdrawals := some [c7wB] } {(some "abcd1234", 5)}
      (by decide)).mpr (by decide)⟩

/-! ### Claim C8 -/

/-- C8: the collateral-inputs check runs only at era ordinal ≥ Alonzo — a
missing `collateral inputs` key is an error there and a silent pass below —
and the reference-inputs check runs only at era ordinal ≥ Babbage, with the
view list defaulting to empty; below the feature era each check is skipped
entirely, whatever the request and view contain. -/
theorem era_gated_checks (ver : Nat) (r : TxRawOutput) (v : TxView) :
    (ver < VERSIONS_ALONZO → collateral_check ver r v = Except.ok ())
    ∧ (VERSIONS_ALONZO ≤ ver → v.collateral_inputs = none →
        collateral_check ver r v = Except.error (TxErr.keyError "collateral inputs"))
    ∧ (∀ l : List String, VERSIONS_ALONZO ≤ ver → v.collateral_inputs = some l →
        (collateral_check ver r v = Except.ok () ↔
          tx_raw_collateral_set r = l.toFinset))
    ∧ (ver < VERSIONS_BABBAGE → reference_check ver r v = Except.ok ())
    ∧ (VERSIONS_BABBAGE ≤ ver →
        (reference_check ver r v = Except.ok () ↔
          tx_raw_reference_set r = (pyListOr v.reference_inputs).toFinset)) := by
  refine ⟨?_, ?_, ?_, ?_, ?_⟩
  · intro h
    unfold collateral_check
    rw [if_neg (Nat.not_le.mpr h)]
  · intro h1 h2
    unfold collateral_check
    rw [if_pos h1, h2]
  · intro l h1 h2
    unfold collateral_check
    rw [if_pos h1, h2]
    split <;> simp_all [_check_collateral_inputs]
  · intro h
    unfold reference_check
    rw [if_neg (Nat.not_le.mpr h)]
  · intro h
    unfold reference_check
    rw [if_pos h]
    split <;> simp_all [_check_reference_inputs]

/-- Request carrying a collateral on its script input. -/
def c8Req : TxRawOutput :=
  { emptyReq with script_txins := [ScriptTxIn.mk [] [UTxOData.mk "cc" 0] none] }

/-- View with no `collateral inputs` key. -/
def c8View : TxView := { baseView with collateral_inputs := none }

theorem era_gated_checks_witness :
    collateral_check 2 c8Req c8View = Except.ok ()
    ∧ collateral_check 5 emptyReq c8View =
        Except.error (TxErr.keyError "collateral inputs")
    ∧ (collateral_check 5 emptyReq baseView = Except.ok () ↔
        tx_raw_collateral_set emptyReq = ([] : List String).toFinset)
    ∧ reference_check 5 emptyReq baseView = Except.ok ()
    ∧ (reference_check 6 emptyReq baseView = Except.ok () ↔
        tx_raw_reference_set emptyReq = (pyListOr baseView.reference_inputs).toFinset) :=
  ⟨(era_gated_checks 2 c8Req c8View).1 (by decide),
   (era_gated_checks 5 emptyReq c8View).2.1 (by decide) rfl,
   (era_gated_checks 5 emptyReq baseView).2.2.1 [] (by decide) rfl,
   (era_gated_checks 5 emptyReq baseView).2.2.2.1 (by decide),
   (era_gated_checks 6 emptyReq baseView).2.2.2.2 (by decide)⟩

/-! ### Claim C9 -/

/-- Every registered allowed-field list of the schema table is non-empty
(so Python's truthiness test on the looked-up set coincides with
registration). -/
theorem certificates_information_ne_nil (name : String) (l : List String)
    (h : CERTIFICATES_INFORMATION name = some l) : l ≠ [] := by
  unfold CERTIFICATES_INFORMATION at h
  split at h <;> simp_all <;> subst h <;> simp

/-- C9: a decoded certificate whose kind is registered in the static schema
table errors exactly when its field-name set is not a subset of the allowed
set for that kind; a certificate of an unregistered kind is skipped and
never causes an error. -/
theorem certificate_schema_subset (name : String) (fields : List String)
    (rest : CertEntry) (allowed : List String) :
    (CERTIFICATES_INFORMATION name = some allowed →
      ((check_certificate ((name, fields) :: rest) =
          Except.error (TxErr.certFieldsError name)
        ↔ ¬ fields.toFinset ⊆ allowed.toFinset)
      ∧ (check_certificate ((name, fields) :: rest) = Except.ok ()
        ↔ fields.toFinset ⊆ allowed.toFinset)))
    ∧ (CERTIFICATES_INFORMATION name = none →
        check_certificate ((name, fields) :: rest) = Except.ok ()) := by
  constructor
  · intro h
    have hne := certificates_information_ne_nil name allowed h
    unfold check_certificate
    simp only [h]
    refine ⟨?_, ?_⟩ <;> split <;> simp_all
  · intro h
    unfold check_certificate
    simp only [h]

theorem certificate_schema_subset_witness :
    check_certificate [("stake address registration", ["stake credential key hash"])] =
      Except.ok ()
    ∧ check_certificate [("stake address registration", ["bogus field"])] =
        Except.error (TxErr.certFieldsError "stake address registration")
    ∧ check_certificate [("some future kind", ["anything"])] = Except.ok () :=
  ⟨((certificate_schema_subset "stake address registration"
        ["stake credential key hash"] []
        ["stake credential key hash", "stake credential script hash"]).1
      (by decide)).2.mpr (by decide),
   ((certificate_schema_subset "stake address registration" ["bogus field"] []
        ["stake credential key hash", "stake credential script hash"]).1
      (by decide)).1.mpr (by decide),
   (certificate_schema_subset "some future kind" ["anything"] [] []).2 (by decide)⟩

/-! ### Claim C10 -/

/-- `check_tx_view` is the nine pre-era checks followed by the era check
and the two era-gated checks. -/
theorem check_tx_view_decomp (d : String -> String) (r : TxRawOutput) (v : TxView) :
    check_tx_view d r v = (do
      pre_era_checks d r v
      let ver ← era_check r v
      collateral_check ver r v
      reference_check ver r v) := by
  unfold check_tx_view pre_era_checks
  simp only [bind_assoc]

/-- C10: when the view's era string does not name a known era after
uppercasing, a run whose earlier checks pass stops at the era lookup with
an attribute-lookup error — never an equivalence mismatch, and without the
collateral- and reference-input checks being evaluated. -/
theorem unknown_era_attribute_error (d : String -> String) (r : TxRawOutput)
    (v : TxView) (e : String)
    (h1 : v.era = some e) (h2 : eraVersion (pyUpper e) = none)
    (h3 : pre_era_checks d r v = Except.ok ()) :
    check_tx_view d r v = Except.error (TxErr.attributeError (pyUpper e))
    ∧ era_check r v = Except.error (TxErr.attributeError (pyUpper e)) := by
  have hera : era_check r v = Except.error (TxErr.attributeError (pyUpper e)) := by
    unfold era_check
    rw [h1]
    simp only [expure, exbind_ok]
    rw [h2]
    simp only [exthrow, exbind_error]
  refine ⟨?_, hera⟩
  rw [check_tx_view_decomp, h3, exbind_ok, hera, exbind_error]

/-- View declaring the unknown era `Conway`. -/
def c10View : TxView := { baseView with era := some "Conway" }

theorem unknown_era_attribute_error_witness :
    check_tx_view (fun _ => "") emptyReq c10View =
      Except.error (TxErr.attributeError (pyUpper "Conway"))
    ∧ era_check emptyReq c10View =
      Except.error (TxErr.attributeError (pyUpper "Conway")) :=
  unknown_era_attribute_error (fun _ => "") emptyReq c10View "Conway" rfl
    (by decide) (by decide)

/-! ### Claim C1 -/

theorem exists_unit_ok {ε : Type} {x : Except ε Unit} {P : Prop} :
    (∃ a, x = Except.ok a ∧ P) ↔ (x = Except.ok () ∧ P) := by
  constructor
  · rintro ⟨a, h⟩
    cases a
    exact h
  · intro h
    exact ⟨(), h⟩

theorem exbind_unit_eq_ok {ε β : Type} {x : Except ε Unit} {f : Unit → Except ε β}
    {b : β} : x >>= f = Except.ok b ↔ x = Except.ok () ∧ f () = Except.ok b := by
  cases x with
  | ok a => cases a; simp [exbind_ok]
  | error e => simp [exbind_error]

/-- C1 counterexample: two runs whose derived collateral sets differ raise
the identical error value — the collateral-inputs failure carries neither
derived value (its Python message is the constant string "collateral inputs
are not the expected"), so the raised error does not report both derived
values for every check. -/
theorem collateral_error_carries_no_values :
    check_tx_view (fun _ => "") c8Req baseView = Except.error TxErr.collateralMismatch
    ∧ check_tx_view (fun _ => "")
        { emptyReq with script_txins := [ScriptTxIn.mk [] [UTxOData.mk "dd" 1] none] }
        baseView = Except.error TxErr.collateralMismatch
    ∧ tx_raw_collateral_set c8Req ≠
        tx_raw_collateral_set
          { emptyReq with script_txins := [ScriptTxIn.mk [] [UTxOData.mk "dd" 1] none] } := by
  decide

/-- C1 (amended): `check_tx_view` evaluates its checks in a fixed order and
stops at the first failure, whose error becomes the result — no later check
is evaluated and no aggregated multi-error report is produced; the run
succeeds exactly when every check passes.  (The error names the failing
property; the inputs, outputs, fee, validity-interval, mint, withdrawals,
certificate-count and era errors carry both derived values, while the
certificate-shape error carries only the certificate kind and the
collateral- and reference-input errors carry no derived values.) -/
theorem check_tx_view_fail_fast (d : String -> String) (r : TxRawOutput) (v : TxView) :
    (∀ e, inputs_check r v = Except.error e →
      check_tx_view d r v = Except.error e)
    ∧ (inputs_check r v = Except.ok () →
        ∀ e, outputs_check r v = Except.error e →
          check_tx_view d r v = Except.error e)
    ∧ (inputs_check r v = Except.ok () → outputs_check r v = Except.ok () →
        ∀ e, fee_check r v = Except.error e →
          check_tx_view d r v = Except.error e)
    ∧ (inputs_check r v = Except.ok () → outputs_check r v = Except.ok () →
        fee_check r v = Except.ok () →
        ∀ e, invalid_before_check r v = Except.error e →
          check_tx_view d r v = Except.error e)
    ∧ (inputs_check r v = Except.ok () → outputs_check r v = Except.ok () →
        fee_check r v = Except.ok () → invalid_before_check r v = Except.ok () →
        ∀ e, invalid_hereafter_check r v = Except.error e →
          check_tx_view d r v = Except.error e)
    ∧ (inputs_check r v = Except.ok () → outputs_check r v = Except.ok () →
        fee_check r v = Except.ok () → invalid_before_check r v = Except.ok () →
        invalid_hereafter_check r v = Except.ok () →
        ∀ e, mint_check r v = Except.error e →
          check_tx_view d r v = Except.error e)
    ∧ (inputs_check r v = Except.ok () → outputs_check r v = Except.ok () →
        fee_check r v = Except.ok () → invalid_before_check r v = Except.ok () →
        invalid_hereafter_check r v = Except.ok () → mint_check r v = Except.ok () →
        ∀ e, withdrawals_check d r v = Except.error e →
          check_tx_view d r v = Except.error e)
    ∧ (inputs_check r v = Except.ok () → outputs_check r v = Except.ok () →
        fee_check r v = Except.ok () → invalid_before_check r v = Except.ok () →
        invalid_hereafter_check r v = Except.ok () → mint_check r v = Except.ok () →
        withdrawals_check d r v = Except.ok () →
        ∀ e, cert_count_check r v = Except.error e →
          check_tx_view d r v = Except.error e)
    ∧ (inputs_check r v = Except.ok () → outputs_check r v = Except.ok () →
        fee_check r v = Except.ok () → invalid_before_check r v = Except.ok () →
        invalid_hereafter_check r v = Except.ok () → mint_check r v = Except.ok () →
        withdrawals_check d r v = Except.ok () → cert_count_check r v = Except.ok () →
        ∀ e, cert_shapes_check v = Except.error e →
          check_tx_view d r v = Except.error e)
    ∧ (inputs_check r v = Except.ok () → outputs_check r v = Except.ok () →
        fee_check r v = Except.ok () → invalid_before_check r v = Except.ok () →
        invalid_hereafter_check r v = Except.ok () → mint_check r v = Except.ok () →
        withdrawals_check d r v = Except.ok () → cert_count_check r v = Except.ok () →
        cert_shapes_check v = Except.ok () →
        ∀ e, era_check r v = Except.error e →
          check_tx_view d r v = Except.error e)
    ∧ (inputs_check r v = Except.ok () → outputs_check r v = Except.ok () →
        fee_check r v = Except.ok () → invalid_before_check r v = Except.ok () →
        invalid_hereafter_check r v = Except.ok () → mint_check r v = Except.ok () →
        withdrawals_check d r v = Except.ok () → cert_count_check r v = Except.ok () →
        cert_shapes_check v = Except.ok () →
        ∀ ver, era_check r v = Except.ok ver →
          ∀ e, collateral_check ver r v = Except.error e →
            check_tx_view d r v = Except.error e)
    ∧ (inputs_check r v = Except.ok () → outputs_check r v = Except.ok () →
        fee_check r v = Except.ok () → invalid_before_check r v = Except.ok () →
        invalid_hereafter_check r v = Except.ok () → mint_check r v = Except.ok () →
        withdrawals_check d r v = Except.ok () → cert_count_check r v = Except.ok () →
        cert_shapes_check v = Except.ok () →
        ∀ ver, era_check r v = Except.ok ver →
          collateral_check ver r v = Except.ok () →
          ∀ e, reference_check ver r v = Except.error e →
            check_tx_view d r v = Except.error e)
    ∧ (check_tx_view d r v = Except.ok () ↔
        (inputs_check r v = Except.ok () ∧ outputs_check r v = Except.ok ()
          ∧ fee_check r v = Except.ok () ∧ invalid_before_check r v = Except.ok ()
          ∧ invalid_hereafter_check r v = Except.ok () ∧ mint_check r v = Except.ok ()
          ∧ withdrawals_check d r v = Except.ok ()
          ∧ cert_count_check r v = Except.ok ()
          ∧ cert_shapes_check v = Except.ok ()
          ∧ ∃ ver, era_check r v = Except.ok ver
              ∧ collateral_check ver r v = Except.ok ()
              ∧ reference_check ver r v = Except.ok ())) := by
  refine ⟨?_, ?_, ?_, ?_, ?_, ?_, ?_, ?_, ?_, ?_, ?_, ?_, ?_⟩
  case _ => intro e he; simp only [check_tx_view, he, exbind_error]
  all_goals (try (intros; simp only [check_tx_view, *, exbind_ok, exbind_error]))
  · simp only [check_tx_view, exbind_unit_eq_ok]
    simp only [exbind_eq_ok]
    simp only [exists_unit_ok]

/-- View with an input that the request does not have. -/
def c1View : TxView := { baseView with inputs := some ["x#0"] }

theorem check_tx_view_fail_fast_witness :
    check_tx_view (fun _ => "") emptyReq c1View =
      Except.error (TxErr.txinsMismatch (tx_raw_txins_set emptyReq)
        (loaded_txins_set c1View)) :=
  (check_tx_view_fail_fast (fun _ => "") emptyReq c1View).1 _ (by decide)

end CardanoTxView
